import Mathlib

/-
Verification of the next-fest collection agent (src/agent.py) against its
natural-language specification.  The Python source is shallowly embedded:
pure computations become Lean functions, the sqlite state becomes explicit
state passing, HTTP responses become explicit input values, and raising
code returns `Except`.
-/

set_option autoImplicit false

namespace NextFest

/-! ## Python string primitives used by the agent -/

/-- Python `str.strip()` on a character list: drop whitespace at both ends. -/
def stripChars (l : List Char) : List Char :=
  ((l.dropWhile Char.isWhitespace).reverse.dropWhile Char.isWhitespace).reverse

/-- Python `str.strip()`. -/
def pyStrip (s : String) : String :=
  ⟨stripChars s.data⟩

/-- Python `str.isdigit()` restricted to ASCII: nonempty and every char a digit. -/
def pyIsdigit (s : String) : Bool :=
  !s.data.isEmpty && s.data.all Char.isDigit

/-- Decimal value of a digit list, as `int(...)` computes it on a digit string. -/
def natOfDigits (l : List Char) : Nat :=
  l.foldl (fun a c => 10 * a + (c.toNat - 48)) 0

/-- Python `int(s)` on a digit string, as an integer. -/
def pyInt (s : String) : Int :=
  Int.ofNat (natOfDigits s.data)

/-- `matchesAt n h` is true when `n` occurs at the very start of `h`
(the anchored step of a substring scan). -/
def matchesAt : List Char → List Char → Bool
  | [], _ => true
  | _ :: _, [] => false
  | a :: as, b :: bs => a == b && matchesAt as bs

/-- `containsSeq n h` is true when `n` occurs contiguously somewhere in `h`;
this is Python's `n in h` on strings. -/
def containsSeq (needle : List Char) : List Char → Bool
  | [] => matchesAt needle []
  | c :: rest => matchesAt needle (c :: rest) || containsSeq needle rest

/-- Python `n in h` for strings. -/
def pyContains (needle hay : String) : Bool :=
  containsSeq needle.data hay.data

/-- Python `str.lower()` (ASCII behaviour). -/
def pyLower (s : String) : String :=
  ⟨s.data.map Char.toLower⟩

/-- Python `', '.join(xs)`. -/
def joinComma (xs : List String) : String :=
  String.intercalate ", " xs

/-- Python `str.split(',')` on a character list. -/
def splitCommaChars : List Char → List (List Char)
  | [] => [[]]
  | c :: rest =>
    if c = ',' then [] :: splitCommaChars rest
    else
      match splitCommaChars rest with
      | [] => [[c]]
      | g :: gs => (c :: g) :: gs

/-- Python `s.split(',')`:  `''.split(',')` is `['']`. -/
def pySplitComma (s : String) : List String :=
  (splitCommaChars s.data).map (fun l => ⟨l⟩)

/-! ## Id discovery: `_extract_appids_from_dom` (src/agent.py lines 66-80) -/

/-- State of the listing page as the extraction code observes it:
the `data-ds-appid` attribute value of each game-card element
(`get_attribute` may return `None`), and the `href` of each anchor
matched by `a[href*="/app/"]`. -/
structure Page where
  dsAppidVals : List (Option String)
  hrefs : List (Option String)

/-- `re.search(r'/app/(\d+)', href)`: find the leftmost occurrence of
`/app/` that is immediately followed by at least one digit and return the
value of the maximal digit run. -/
def appSearch : List Char → Option Nat
  | [] => none
  | c :: rest =>
    if matchesAt "/app/".data (c :: rest) then
      if (((c :: rest).drop 5).takeWhile Char.isDigit).isEmpty then appSearch rest
      else some (natOfDigits (((c :: rest).drop 5).takeWhile Char.isDigit))
    else appSearch rest

/-- `_extract_appids_from_dom`: split every `data-ds-appid` attribute on
commas, strip each token, keep the numeric ones; then regex-match every
anchor href; accumulate everything into one set. -/
def extract_appids_from_dom (p : Page) : Finset ℤ :=
  let ids : Finset ℤ :=
    p.dsAppidVals.foldl (fun s v =>
      (pySplitComma (v.getD "")).foldl (fun s2 t =>
        let a := pyStrip t
        if pyIsdigit a then insert (pyInt a) s2 else s2) s) ∅
  p.hrefs.foldl (fun s h =>
    match appSearch (h.getD "").data with
    | some n => insert (Int.ofNat n) s
    | none => s) ids

/-- The ids contributed by the attribute strategy alone (first loop of
`_extract_appids_from_dom`). -/
def attrIdsOfVal (val : String) : List Int :=
  (pySplitComma val).filterMap (fun t =>
    let a := pyStrip t
    if pyIsdigit a then some (pyInt a) else none)

/-- Set of ids produced by the `data-ds-appid` attribute strategy. -/
def attrStrategyIds (p : Page) : Finset ℤ :=
  ((p.dsAppidVals.map (fun v => attrIdsOfVal (v.getD ""))).flatten).toFinset

/-- Set of ids produced by the anchor-href regex strategy. -/
def hrefStrategyIds (p : Page) : Finset ℤ :=
  (p.hrefs.filterMap (fun h => (appSearch (h.getD "").data).map Int.ofNat)).toFinset

/-! ## Id discovery: per-item body of `_paginate_search` (lines 114-118) -/

/-- One entry of the JSON search response's `items` array; the code reads
`item.get('logo', '')`. -/
structure SearchItem where
  logo : Option String
deriving DecidableEq

/-- Helper of `logoSearch`: the digit run and what follows it. -/
def digitRunSlash (tl : List Char) : Option Nat :=
  match tl.takeWhile Char.isDigit, tl.drop (tl.takeWhile Char.isDigit).length with
  | d :: ds, '/' :: _ => some (natOfDigits (d :: ds))
  | _, _ => none

/-- `re.search(r'/apps/(\d+)/', logo)`: leftmost occurrence of `/apps/`
followed by a digit run that is itself followed by `/`. -/
def logoSearch : List Char → Option Nat
  | [] => none
  | c :: rest =>
    if matchesAt "/apps/".data (c :: rest) then
      match digitRunSlash ((c :: rest).drop 6) with
      | some n => some n
      | none => logoSearch rest
    else logoSearch rest

/-- The appid-accumulating loop body of `_paginate_search` over one page of
items. -/
def paginate_items (items : List SearchItem) (s : Finset ℤ) : Finset ℤ :=
  items.foldl (fun s2 it =>
    match logoSearch (it.logo.getD "").data with
    | some n => insert (Int.ofNat n) s2
    | none => s2) s

/-! ## Details payload (the `data` object of the appdetails response) -/

/-- A genre/category entry: a dict whose `description` key may be absent.
Subscripting an absent key raises `KeyError`. -/
structure DescEntry where
  description : Option String
deriving DecidableEq

/-- The `tags` payload can be a dict (values used, in order), a list of
entries (each entry's `description` used, defaulting to `''`), or some
other shape. -/
inductive TagsPayload
  | dict (values : List String)
  | list (entries : List DescEntry)
  | other
deriving DecidableEq

/-- The optional `price_overview` block. -/
structure PriceOverview where
  initial : Option Int
  final : Option Int
  currency : Option String
deriving DecidableEq

/-- The optional `recommendations` block. -/
structure Recommendations where
  total : Option Int
deriving DecidableEq

/-- The optional `release_date` block. -/
structure ReleaseDate where
  date : Option String
deriving DecidableEq

/-- The fields of the details payload that `collect` reads, each `Option`
because `game.get(...)` tolerates absence. -/
structure Game where
  name : Option String
  genres : Option (List DescEntry)
  tags : Option TagsPayload
  categories : Option (List DescEntry)
  developers : Option (List String)
  publishers : Option (List String)
  release_date : Option ReleaseDate
  supported_languages : Option String
  recommendations : Option Recommendations
  price_overview : Option PriceOverview
deriving DecidableEq

/-! ## Enrichment fetchers (src/agent.py lines 180-214) -/

/-- Entry of the appdetails JSON body under the appid key: the boolean
`success` flag and, possibly, a `data` object. -/
structure DetailsEntry where
  success : Bool
  data : Option Game
deriving DecidableEq

/-- The response of the appdetails request as `fetch_game` observes it:
either the request/JSON decode raised (timeout, connection failure,
malformed body), or a JSON body whose entry under the appid key may be
absent. -/
inductive DetailsResp
  | transportError (msg : String)
  | body (entry : Option DetailsEntry)
deriving DecidableEq

/-- `fetch_game` (lines 180-186).  It has no `try`: a transport error
propagates as an exception (`Except.error`), as does a `KeyError` on a
malformed body.  `success == false` returns `None`. -/
def fetch_game (r : DetailsResp) : Except String (Option Game) :=
  match r with
  | DetailsResp.transportError m => Except.error m
  | DetailsResp.body none => Except.error "KeyError"
  | DetailsResp.body (some e) =>
    if !e.success then Except.ok none
    else
      match e.data with
      | none => Except.error "KeyError"
      | some d => Except.ok (some d)

/-- The `query_summary` object of the appreviews response; every field may
be absent (`reviews.get(...)` returns `None` then). -/
structure QuerySummary where
  review_score : Option Int
  review_score_desc : Option String
  total_positive : Option Int
  total_negative : Option Int
  total_reviews : Option Int
deriving DecidableEq

/-- The empty summary dict `{}`. -/
def emptySummary : QuerySummary :=
  ⟨none, none, none, none, none⟩

/-- The appreviews response as `fetch_reviews` observes it. -/
inductive ReviewsResp
  | transportError (msg : String)
  | resp (success : Option Int) (query_summary : Option QuerySummary)
deriving DecidableEq

/-- `fetch_reviews` (lines 189-200): returns the summary when
`data.get('success') == 1`, the empty dict on any transport error or
other success value. -/
def fetch_reviews (r : ReviewsResp) : QuerySummary :=
  match r with
  | ReviewsResp.transportError _ => emptySummary
  | ReviewsResp.resp s qs =>
    if s = some 1 then qs.getD emptySummary else emptySummary

/-- The GetNumberOfCurrentPlayers response as `fetch_player_count`
observes it: `data['response']['result']` and
`data['response']['player_count']`, each possibly absent (a `KeyError` is
caught by the function's own handler and yields `None`). -/
inductive PlayersResp
  | transportError (msg : String)
  | resp (result : Option Int) (player_count : Option Int)
deriving DecidableEq

/-- `fetch_player_count` (lines 203-214): the count when the result code
is 1, otherwise `None`; all exceptions are caught. -/
def fetch_player_count (r : PlayersResp) : Option Int :=
  match r with
  | PlayersResp.transportError _ => none
  | PlayersResp.resp res pc => if res = some 1 then pc else none

/-! ## Record mapper (body of `collect`, src/agent.py lines 240-267) -/

/-- Python subscripting of a possibly-absent dict key: raises `KeyError`
when the key is missing. -/
def pyKey {α : Type} (o : Option α) : Except String α :=
  match o with
  | some v => Except.ok v
  | none => Except.error "KeyError"

/-- The list comprehension `[e['description'] for e in entries]`: evaluated
left to right, raising at the first entry lacking the key. -/
def mapDescs : List DescEntry → Except String (List String)
  | [] => Except.ok []
  | e :: rest =>
    match pyKey e.description with
    | Except.error m => Except.error m
    | Except.ok d =>
      match mapDescs rest with
      | Except.error m => Except.error m
      | Except.ok ds => Except.ok (d :: ds)

/-- The tag normalization of lines 243-249: values of a dict, descriptions
(defaulted to `''`) of a list, `''` for any other shape. -/
def tagsText (t : TagsPayload) : String :=
  match t with
  | TagsPayload.dict vs => joinComma vs
  | TagsPayload.list es => joinComma (es.map (fun e => e.description.getD ""))
  | TagsPayload.other => ""

/-- The AI-disclosure test of lines 253-256 over the category
descriptions. -/
def has_ai_disclosure (descs : List String) : Bool :=
  descs.any (fun d => pyContains "AI" d || pyContains "ai generated" (pyLower d))

/-- The flat record the `collect` body binds into its two SQL statements
(the mutable `games` columns plus `recommendations`). -/
structure MappedGame where
  name : String
  genres : String
  tags : String
  categories : String
  has_ai_disclosure : Int
  developers : String
  publishers : String
  release_date : String
  supported_languages : String
  recommendations : Int
  price_initial : Int
  price_final : Int
  price_currency : String
deriving DecidableEq

/-- Lines 240-267 of `collect`: map a details payload to the flat record.
The genre comprehension runs first and the category comprehension later,
each raising `KeyError` on an entry lacking `description`; everything
else is total with the defaults the `get` calls supply. -/
def mapGame (g : Game) : Except String MappedGame :=
  match mapDescs (g.genres.getD []) with
  | Except.error m => Except.error m
  | Except.ok genreDescs =>
    match mapDescs (g.categories.getD []) with
    | Except.error m => Except.error m
    | Except.ok catDescs =>
      Except.ok
        { name := g.name.getD ""
          genres := joinComma genreDescs
          tags := tagsText (g.tags.getD (TagsPayload.dict []))
          categories := joinComma catDescs
          has_ai_disclosure := if has_ai_disclosure catDescs then 1 else 0
          developers := joinComma (g.developers.getD [])
          publishers := joinComma (g.publishers.getD [])
          release_date := (g.release_date.getD ⟨none⟩).date.getD ""
          supported_languages := g.supported_languages.getD ""
          recommendations := (g.recommendations.getD ⟨none⟩).total.getD 0
          price_initial := (g.price_overview.getD ⟨none, none, none⟩).initial.getD 0
          price_final := (g.price_overview.getD ⟨none, none, none⟩).final.getD 0
          price_currency := (g.price_overview.getD ⟨none, none, none⟩).currency.getD "" }

/-! ## Persistence layer: the `games` upsert and `snapshots` insert -/

/-- A row of the `games` table. -/
structure GameRow where
  name : String
  genres : String
  tags : String
  categories : String
  has_ai_disclosure : Int
  developers : String
  publishers : String
  release_date : String
  supported_languages : String
  price_initial : Int
  price_final : Int
  price_currency : String
  first_seen : Nat
  last_updated : Nat
deriving DecidableEq

/-- A row of the `snapshots` table; every metric column is nullable. -/
structure SnapshotRow where
  appid : Nat
  recommendations : Option Int
  review_score : Option Int
  review_score_desc : Option String
  total_positive : Option Int
  total_negative : Option Int
  total_reviews : Option Int
  player_count : Option Int
  collected_at : Nat
deriving DecidableEq

/-- `COALESCE((SELECT first_seen FROM games WHERE appid = ?), CURRENT_TIMESTAMP)`:
the scalar subquery is evaluated against the pre-statement table state. -/
def coalesce_first_seen (prior : Option GameRow) (now : Nat) : Nat :=
  match prior with
  | some old => old.first_seen
  | none => now

/-- The `games` row the `INSERT OR REPLACE` of lines 280-291 writes, given
the coalesced `first_seen` and the refreshed `last_updated`. -/
def rowOfMapped (m : MappedGame) (fs lu : Nat) : GameRow :=
  { name := m.name, genres := m.genres, tags := m.tags
    categories := m.categories, has_ai_disclosure := m.has_ai_disclosure
    developers := m.developers, publishers := m.publishers
    release_date := m.release_date, supported_languages := m.supported_languages
    price_initial := m.price_initial, price_final := m.price_final
    price_currency := m.price_currency, first_seen := fs, last_updated := lu }

/-- The `INSERT OR REPLACE INTO games` of lines 280-291: replace the row
keyed by `appid`, coalescing `first_seen` from the prior row and setting
`last_updated` to the current time. -/
def upsertGame (now : Nat) (appid : Nat) (m : MappedGame)
    (games : Nat → Option GameRow) : Nat → Option GameRow :=
  fun k =>
    if k = appid then some (rowOfMapped m (coalesce_first_seen (games appid) now) now)
    else games k

/-- The `snapshots` row the `INSERT INTO snapshots` of lines 293-302
appends: the integer `recommendations` binding is always non-null, the
review and player bindings pass through their (possibly `None`)
values. -/
def snapshotRowOf (now appid : Nat) (m : MappedGame) (qs : QuerySummary)
    (pc : Option Int) : SnapshotRow :=
  { appid := appid
    recommendations := some m.recommendations
    review_score := qs.review_score
    review_score_desc := qs.review_score_desc
    total_positive := qs.total_positive
    total_negative := qs.total_negative
    total_reviews := qs.total_reviews
    player_count := pc
    collected_at := now }

/-! ## Collection orchestrator (the per-appid loop of `collect`, lines 233-308) -/

/-- The network as one collection run observes it: the response each
endpoint gives for each appid. -/
structure Env where
  details : Nat → DetailsResp
  reviews : Nat → ReviewsResp
  players : Nat → PlayersResp

/-- The database state: the `games` table keyed by appid, and the
append-only `snapshots` table. -/
structure DB where
  games : Nat → Option GameRow
  snapshots : List SnapshotRow

/-- One iteration of the per-appid loop.  The whole body is inside
`try`: any exception (transport error or `KeyError` from `fetch_game`,
`KeyError` from the mapping comprehensions) is caught, logged, and leaves
the database untouched; `fetch_game` returning `None` (`success=false`)
logs and continues.  On success the reviews and player-count fetches run
(they never raise), the `games` row is upserted and a `snapshots` row is
appended. -/
def stepAppid (env : Env) (now : Nat) (db : DB) (appid : Nat) : DB :=
  match fetch_game (env.details appid) with
  | Except.error _ => db
  | Except.ok none => db
  | Except.ok (some g) =>
    match mapGame g with
    | Except.error _ => db
    | Except.ok m =>
      let qs := fetch_reviews (env.reviews appid)
      let pc := fetch_player_count (env.players appid)
      { games := upsertGame now appid m db.games
        snapshots := db.snapshots ++ [snapshotRowOf now appid m qs pc] }

/-- The `for appid in appids` loop of `collect`. -/
def collectLoop (env : Env) (now : Nat) (ids : List Nat) (db : DB) : DB :=
  ids.foldl (stepAppid env now) db

/-! ## Schema migration in `init_db` (src/agent.py lines 51-62) -/

/-- A sqlite cell value. -/
inductive SqlVal
  | int (i : Int)
  | text (t : String)
deriving DecidableEq

/-- The `snapshots` table as the migration sees it: the declared columns
(name and typedef, in declaration order) and the rows, each row holding
one (column, value) cell per column in order; `none` is NULL. -/
structure SnapTable where
  cols : List (String × String)
  rows : List (List (String × Option SqlVal))

/-- The column names, as `PRAGMA table_info(snapshots)` reports them. -/
def colNames (t : SnapTable) : List String :=
  t.cols.map Prod.fst

/-- `ALTER TABLE snapshots ADD COLUMN col typedef`: the column is appended
to the schema and every existing row gets NULL for it. -/
def addColumn (t : SnapTable) (col typedef : String) : SnapTable :=
  { cols := t.cols ++ [(col, typedef)]
    rows := t.rows.map (fun r => r ++ [(col, none)]) }

/-- The (col, typedef) list of the migration loop in `init_db`. -/
def expectedColumns : List (String × String) :=
  [("review_score", "INTEGER"), ("review_score_desc", "TEXT"),
   ("total_positive", "INTEGER"), ("total_negative", "INTEGER"),
   ("total_reviews", "INTEGER"), ("player_count", "INTEGER")]

/-- The migration part of `init_db` on an existing `snapshots` table: the
existing column set is read once, then each expected column absent from it
is added. -/
def init_db_migrate (t : SnapTable) : SnapTable :=
  let existing := colNames t
  expectedColumns.foldl
    (fun acc ct => if ct.1 ∈ existing then acc else addColumn acc ct.1 ct.2) t

/-! ## Shared concrete values for witnesses -/

instance {ε α : Type} [DecidableEq ε] [DecidableEq α] : DecidableEq (Except ε α) :=
  fun x y =>
    match x, y with
    | Except.error a, Except.error b =>
        decidable_of_iff (a = b) ⟨fun h => h ▸ rfl, fun h => by cases h; rfl⟩
    | Except.error _, Except.ok _ => isFalse fun h => Except.noConfusion h
    | Except.ok _, Except.error _ => isFalse fun h => Except.noConfusion h
    | Except.ok a, Except.ok b =>
        decidable_of_iff (a = b) ⟨fun h => h ▸ rfl, fun h => by cases h; rfl⟩

/-- A details payload with every optional field absent. -/
def emptyGame : Game :=
  ⟨none, none, none, none, none, none, none, none, none, none⟩

/-- The record `mapGame` produces from `emptyGame`. -/
def emptyMapped : MappedGame :=
  ⟨"", "", "", "", 0, "", "", "", "", 0, 0, 0, ""⟩

/-- An empty database. -/
def dbEmpty : DB :=
  { games := fun _ => none, snapshots := [] }

/-- Mapping the all-absent payload succeeds with the all-default record. -/
theorem mapGame_empty : mapGame emptyGame = Except.ok emptyMapped := rfl

/-! ## C5: the AI-disclosure flag -/

/-- The flag as §4.3 of the spec words it: some category description
contains the substring `AI` (case-sensitive) or contains `ai generated`
ignoring case. -/
def specAiDisclosure (descs : List String) : Prop :=
  ∃ d ∈ descs,
    containsSeq "AI".data d.data = true
    ∨ containsSeq (pyLower "ai generated").data (pyLower d).data = true

/-- C5: for every list of category descriptions the computed flag is true
iff some description contains `AI` (case-sensitive) or `ai generated`
ignoring case; in particular `["AI Generated Content", "Single-player"]`
yields true, `["Single-player"]` yields false, and
`["ai generated content disclosure"]` yields true. -/
theorem ai_disclosure_flag :
    (∀ descs : List String, has_ai_disclosure descs = true ↔ specAiDisclosure descs)
    ∧ has_ai_disclosure ["AI Generated Content", "Single-player"] = true
    ∧ has_ai_disclosure ["Single-player"] = false
    ∧ has_ai_disclosure ["ai generated content disclosure"] = true := by
  refine ⟨fun descs => ?_, by decide, by decide, by decide⟩
  have hl : pyLower "ai generated" = "ai generated" := by decide
  simp [has_ai_disclosure, specAiDisclosure, pyContains, hl, List.any_eq_true]

/-! ## C6: tag payload normalization -/

/-- C6: a dict tag payload renders as its comma-joined values, a list tag
payload as the comma-joined (defaulted) descriptions, any other shape as
the empty string; the two example payloads both render `"Indie, Action"`
through the full mapper. -/
theorem tag_normalization :
    (∀ vs : List String, tagsText (TagsPayload.dict vs) = joinComma vs)
    ∧ (∀ es : List DescEntry, tagsText (TagsPayload.list es)
        = joinComma (es.map (fun e => e.description.getD "")))
    ∧ tagsText TagsPayload.other = ""
    ∧ mapGame { emptyGame with tags := some (TagsPayload.dict ["Indie", "Action"]) }
        = Except.ok { emptyMapped with tags := "Indie, Action" }
    ∧ mapGame { emptyGame with tags := some (TagsPayload.list [⟨some "Indie"⟩, ⟨some "Action"⟩]) }
        = Except.ok { emptyMapped with tags := "Indie, Action" }
    ∧ mapGame { emptyGame with tags := some TagsPayload.other }
        = Except.ok emptyMapped :=
  ⟨fun _ => rfl, fun _ => rfl, rfl, by decide, by decide, by decide⟩

/-! ## C3: the games upsert -/

/-- C3: `upsertGame` inserts a fresh row with both timestamps at the
current time when no row exists; on an existing row it overwrites every
mutable field and carries the prior `first_seen` forward while refreshing
`last_updated`; two successive calls with the same id leave `first_seen`
at the value the first call coalesced and every other field at the second
call's values; rows of other ids are untouched. -/
theorem upsert_contract (games : Nat → Option GameRow) (a now1 now2 : Nat)
    (m1 m2 : MappedGame) :
    (games a = none →
      upsertGame now1 a m1 games a = some (rowOfMapped m1 now1 now1))
    ∧ (∀ old, games a = some old →
      upsertGame now1 a m1 games a = some (rowOfMapped m1 old.first_seen now1))
    ∧ upsertGame now2 a m2 (upsertGame now1 a m1 games) a
        = some (rowOfMapped m2 (coalesce_first_seen (games a) now1) now2)
    ∧ (∀ k, k ≠ a → upsertGame now1 a m1 games k = games k) := by
  refine ⟨fun h => ?_, fun old h => ?_, ?_, fun k hk => ?_⟩
  · simp [upsertGame, coalesce_first_seen, h]
  · simp [upsertGame, coalesce_first_seen, h]
  · cases h : games a <;>
      simp [upsertGame, coalesce_first_seen, rowOfMapped, h]
  · simp [upsertGame, hk]

/-- Witness: the contract evaluated on the empty table at id 7. -/
theorem upsert_contract_witness :
    upsertGame 1 7 emptyMapped (fun _ => none) 7 = some (rowOfMapped emptyMapped 1 1) :=
  (upsert_contract (fun _ => none) 7 1 2 emptyMapped emptyMapped).1 rfl

/-! ## C1: transport errors in `fetch_game` -/

/-- C1 counterexample: on a transport error `fetch_game` raises (the
exception propagates) instead of returning `None`. -/
theorem fetch_game_raises_cex :
    fetch_game (DetailsResp.transportError "timed out") = Except.error "timed out"
    ∧ fetch_game (DetailsResp.transportError "timed out")
        ≠ Except.ok (none : Option Game) :=
  ⟨rfl, by decide⟩

/-- C1 amended: a transport error propagates out of `fetch_game` as an
exception; it is the per-id handler of `collect` that catches it, leaving
the database unchanged, so the error still surfaces as "no data" one
level up. -/
theorem fetch_game_error_propagates (env : Env) (now a : Nat) (db : DB) (msg : String)
    (h : env.details a = DetailsResp.transportError msg) :
    fetch_game (env.details a) = Except.error msg
    ∧ stepAppid env now db a = db := by
  constructor
  · rw [h]; rfl
  · simp [stepAppid, h, fetch_game]

/-- An environment in which every endpoint fails with a transport error. -/
def envErr : Env :=
  { details := fun _ => DetailsResp.transportError "timed out"
    reviews := fun _ => ReviewsResp.transportError "timed out"
    players := fun _ => PlayersResp.transportError "timed out" }

/-- Witness: the amended C1 statement at appid 10 in `envErr`. -/
theorem fetch_game_error_propagates_witness :
    fetch_game (envErr.details 10) = Except.error "timed out"
    ∧ stepAppid envErr 0 dbEmpty 10 = dbEmpty :=
  fetch_game_error_propagates envErr 0 10 dbEmpty "timed out" rfl

/-! ## C2: nullability of the snapshot metrics -/

/-- An environment whose details fetch succeeds with the all-absent
payload while the reviews and player-count endpoints fail. -/
def envRec : Env :=
  { details := fun _ => DetailsResp.body (some ⟨true, some emptyGame⟩)
    reviews := fun _ => ReviewsResp.transportError "down"
    players := fun _ => PlayersResp.transportError "down" }

/-- C2 counterexample: with the `recommendations` block absent from the
details payload, the appended snapshot row stores recommendation count
`0`, not NULL — absence of this one metric is coerced to zero. -/
theorem snapshot_zero_coercion_cex :
    (stepAppid envRec 5 dbEmpty 1).snapshots.map SnapshotRow.recommendations
      = [some 0]
    ∧ some (0 : Int) ≠ (none : Option Int) :=
  ⟨rfl, by decide⟩

/-- C2 amended: in the appended snapshot row the review metrics and the
player count pass through as NULL when their sources are absent, but the
recommendation count is always stored non-NULL, defaulting to `0` when
the details payload carries no recommendation total. -/
theorem snapshot_nullability (env : Env) (now a : Nat) (db : DB)
    (g : Game) (m : MappedGame)
    (hf : fetch_game (env.details a) = Except.ok (some g))
    (hm : mapGame g = Except.ok m)
    (hq : fetch_reviews (env.reviews a) = emptySummary)
    (hp : fetch_player_count (env.players a) = none)
    (hg : g.recommendations = none) :
    (stepAppid env now db a).snapshots
      = db.snapshots ++ [snapshotRowOf now a m emptySummary none]
    ∧ (snapshotRowOf now a m emptySummary none).review_score = none
    ∧ (snapshotRowOf now a m emptySummary none).review_score_desc = none
    ∧ (snapshotRowOf now a m emptySummary none).total_positive = none
    ∧ (snapshotRowOf now a m emptySummary none).total_negative = none
    ∧ (snapshotRowOf now a m emptySummary none).total_reviews = none
    ∧ (snapshotRowOf now a m emptySummary none).player_count = none
    ∧ (snapshotRowOf now a m emptySummary none).recommendations = some 0 := by
  have hrec : m.recommendations = 0 := by
    unfold mapGame at hm
    cases h1 : mapDescs (g.genres.getD []) with
    | error e => rw [h1] at hm; exact absurd hm (by simp)
    | ok gd =>
      cases h2 : mapDescs (g.categories.getD []) with
      | error e => rw [h1, h2] at hm; exact absurd hm (by simp)
      | ok cd =>
        rw [h1, h2] at hm
        cases hm
        simp [hg]
  refine ⟨?_, rfl, rfl, rfl, rfl, rfl, rfl, ?_⟩
  · simp [stepAppid, hf, hm, hq, hp]
  · simp [snapshotRowOf, hrec]

/-- Witness: the amended C2 statement at appid 1 in `envRec`. -/
theorem snapshot_nullability_witness :
    (stepAppid envRec 5 dbEmpty 1).snapshots
      = dbEmpty.snapshots ++ [snapshotRowOf 5 1 emptyMapped emptySummary none]
    ∧ (snapshotRowOf 5 1 emptyMapped emptySummary none).review_score = none
    ∧ (snapshotRowOf 5 1 emptyMapped emptySummary none).review_score_desc = none
    ∧ (snapshotRowOf 5 1 emptyMapped emptySummary none).total_positive = none
    ∧ (snapshotRowOf 5 1 emptyMapped emptySummary none).total_negative = none
    ∧ (snapshotRowOf 5 1 emptyMapped emptySummary none).total_reviews = none
    ∧ (snapshotRowOf 5 1 emptyMapped emptySummary none).player_count = none
    ∧ (snapshotRowOf 5 1 emptyMapped emptySummary none).recommendations = some 0 :=
  snapshot_nullability envRec 5 1 dbEmpty emptyGame emptyMapped rfl rfl rfl rfl rfl

/-! ## C10: entries lacking a description field -/

/-- A comprehension over entries one of which lacks `description` raises. -/
lemma mapDescs_error_of_missing (l : List DescEntry)
    (h : ∃ e ∈ l, e.description = none) :
    mapDescs l = Except.error "KeyError" := by
  induction l with
  | nil => rcases h with ⟨e, he, _⟩; cases he
  | cons e rest ih =>
    rcases h with ⟨x, hx, hxd⟩
    rcases List.mem_cons.mp hx with h1 | h1
    · subst h1
      simp [mapDescs, hxd, pyKey]
    · cases hd : e.description with
      | none => simp [mapDescs, hd, pyKey]
      | some d =>
        simp [mapDescs, hd, pyKey, ih ⟨x, h1, hxd⟩]

/-- A payload with a genre or category entry lacking `description` makes
the mapping raise. -/
lemma mapGame_error_of_missing (g : Game)
    (hbad : (∃ e ∈ g.genres.getD [], e.description = none)
      ∨ (∃ e ∈ g.categories.getD [], e.description = none)) :
    ∃ msg, mapGame g = Except.error msg := by
  cases hbad with
  | inl h =>
    exact ⟨"KeyError", by unfold mapGame; rw [mapDescs_error_of_missing _ h]⟩
  | inr h =>
    cases h1 : mapDescs (g.genres.getD []) with
    | error e => exact ⟨e, by unfold mapGame; rw [h1]⟩
    | ok gd =>
      exact ⟨"KeyError", by
        unfold mapGame; rw [h1, mapDescs_error_of_missing _ h]⟩

/-- C10: when a genre or category entry lacks its `description` field the
mapping raises, the per-id handler catches it, and the database is left
unchanged for that id (no Item row, no Observation row); by contrast a
tag-list entry lacking `description` is tolerated and contributes an
empty string to the joined tag text. -/
theorem missing_description_skips (env : Env) (now a : Nat) (db : DB) (g : Game)
    (hf : env.details a = DetailsResp.body (some ⟨true, some g⟩))
    (hbad : (∃ e ∈ g.genres.getD [], e.description = none)
      ∨ (∃ e ∈ g.categories.getD [], e.description = none)) :
    stepAppid env now db a = db
    ∧ mapGame { emptyGame with tags := some (TagsPayload.list [⟨some "Indie"⟩, ⟨none⟩]) }
        = Except.ok { emptyMapped with tags := "Indie, " } := by
  refine ⟨?_, by decide⟩
  have hfg : fetch_game (env.details a) = Except.ok (some g) := by rw [hf]; rfl
  obtain ⟨msg, hmap⟩ := mapGame_error_of_missing g hbad
  simp [stepAppid, hfg, hmap]

/-- An environment whose details payload has a genre entry lacking its
description field. -/
def envBad : Env :=
  { details := fun _ =>
      DetailsResp.body (some ⟨true, some { emptyGame with genres := some [⟨none⟩] }⟩)
    reviews := fun _ => ReviewsResp.transportError "down"
    players := fun _ => PlayersResp.transportError "down" }

/-- Witness: in `envBad` the step for appid 3 writes nothing. -/
theorem missing_description_skips_witness :
    stepAppid envBad 0 dbEmpty 3 = dbEmpty :=
  (missing_description_skips envBad 0 3 dbEmpty
    { emptyGame with genres := some [⟨none⟩] } rfl
    (Or.inl ⟨⟨none⟩, by decide, rfl⟩)).1

/-! ## C7: per-id failure isolation in the collect loop -/

/-- One loop iteration only touches the `games` row of its own appid. -/
lemma stepAppid_games_other (env : Env) (now : Nat) (db : DB) (a k : Nat)
    (hk : k ≠ a) : (stepAppid env now db a).games k = db.games k := by
  unfold stepAppid
  split
  · rfl
  · rfl
  · split
    · rfl
    · simp [upsertGame, hk]

/-- One loop iteration only ever appends to `snapshots`. -/
lemma stepAppid_snapshots_mem (env : Env) (now : Nat) (db : DB) (a : Nat)
    (r : SnapshotRow) (h : r ∈ db.snapshots) :
    r ∈ (stepAppid env now db a).snapshots := by
  unfold stepAppid
  split
  · exact h
  · exact h
  · split
    · exact h
    · exact List.mem_append_left _ h

/-- The loop leaves `games` rows of appids outside the id list untouched. -/
lemma collectLoop_games_other (env : Env) (now : Nat) (ids : List Nat) (db : DB)
    (k : Nat) (hk : k ∉ ids) :
    (collectLoop env now ids db).games k = db.games k := by
  induction ids generalizing db with
  | nil => rfl
  | cons hd tl ih =>
    have h1 : k ∉ tl := fun h => hk (List.mem_cons_of_mem _ h)
    have h2 : k ≠ hd := fun h => hk (h ▸ List.mem_cons_self hd tl)
    show (collectLoop env now tl (stepAppid env now db hd)).games k = db.games k
    rw [ih _ h1, stepAppid_games_other env now db hd k h2]

/-- The loop never removes a `snapshots` row. -/
lemma collectLoop_snapshots_mem (env : Env) (now : Nat) (ids : List Nat) (db : DB)
    (r : SnapshotRow) (h : r ∈ db.snapshots) :
    r ∈ (collectLoop env now ids db).snapshots := by
  induction ids generalizing db with
  | nil => exact h
  | cons hd tl ih =>
    exact ih _ (stepAppid_snapshots_mem env now db hd r h)

/-- C7: whatever the other ids of the run do — including raising — an id
whose details fetch and mapping succeed gets its `games` row upserted and
its `snapshots` row appended; a bad id elsewhere in the list never aborts
the loop. -/
theorem per_id_isolation (env : Env) (now : Nat) (l1 l2 : List Nat) (a : Nat)
    (db : DB) (g : Game) (m : MappedGame)
    (ha1 : a ∉ l1) (ha2 : a ∉ l2)
    (hf : fetch_game (env.details a) = Except.ok (some g))
    (hm : mapGame g = Except.ok m) :
    (collectLoop env now (l1 ++ a :: l2) db).games a
      = some (rowOfMapped m (coalesce_first_seen (db.games a) now) now)
    ∧ snapshotRowOf now a m (fetch_reviews (env.reviews a))
        (fetch_player_count (env.players a))
        ∈ (collectLoop env now (l1 ++ a :: l2) db).snapshots := by
  have hsplit : collectLoop env now (l1 ++ a :: l2) db
      = collectLoop env now l2 (stepAppid env now (collectLoop env now l1 db) a) := by
    simp [collectLoop, List.foldl_append]
  have hdb1 : (collectLoop env now l1 db).games a = db.games a :=
    collectLoop_games_other env now l1 db a ha1
  have hstep : stepAppid env now (collectLoop env now l1 db) a
      = { games := upsertGame now a m (collectLoop env now l1 db).games
          snapshots := (collectLoop env now l1 db).snapshots
            ++ [snapshotRowOf now a m (fetch_reviews (env.reviews a))
                  (fetch_player_count (env.players a))] } := by
    simp [stepAppid, hf, hm]
  constructor
  · rw [hsplit, collectLoop_games_other env now l2 _ a ha2, hstep]
    simp [upsertGame, hdb1]
  · rw [hsplit]
    apply collectLoop_snapshots_mem
    rw [hstep]
    simp

/-- An environment in which appid 20 hits a transport error while every
other id enriches fine. -/
def envIso : Env :=
  { details := fun i =>
      if i = 20 then DetailsResp.transportError "timed out"
      else DetailsResp.body (some ⟨true, some emptyGame⟩)
    reviews := fun _ => ReviewsResp.transportError "down"
    players := fun _ => PlayersResp.transportError "down" }

/-- Witness: running ids `[10, 20, 30]` with 20 broken still writes both
rows for 30. -/
theorem per_id_isolation_witness :
    (collectLoop envIso 0 ([10, 20] ++ 30 :: []) dbEmpty).games 30
      = some (rowOfMapped emptyMapped (coalesce_first_seen (dbEmpty.games 30) 0) 0)
    ∧ snapshotRowOf 0 30 emptyMapped (fetch_reviews (envIso.reviews 30))
        (fetch_player_count (envIso.players 30))
        ∈ (collectLoop envIso 0 ([10, 20] ++ 30 :: []) dbEmpty).snapshots :=
  per_id_isolation envIso 0 [10, 20] [] 30 dbEmpty emptyGame emptyMapped
    (by decide) (by decide) rfl rfl

/-! ## C4: additive schema migration -/

/-- Column names after the migration fold: the original schema followed by
exactly the expected columns absent from `ex`. -/
lemma migrate_fold_cols (L : List (String × String)) (ex : List String) :
    ∀ t : SnapTable,
      colNames (L.foldl
        (fun acc ct => if ct.1 ∈ ex then acc else addColumn acc ct.1 ct.2) t)
      = colNames t ++ (L.filter (fun ct => decide (ct.1 ∉ ex))).map Prod.fst := by
  induction L with
  | nil => intro t; simp
  | cons c rest ih =>
    intro t
    by_cases hc : c.1 ∈ ex
    · simp [List.foldl_cons, hc, ih]
    · simp only [List.foldl_cons, if_neg hc, ih, List.filter_cons]
      simp [hc, addColumn, colNames]

/-- Rows after the migration fold: every original row extended with a NULL
cell per added column. -/
lemma migrate_fold_rows (L : List (String × String)) (ex : List String) :
    ∀ t : SnapTable,
      (L.foldl
        (fun acc ct => if ct.1 ∈ ex then acc else addColumn acc ct.1 ct.2) t).rows
      = t.rows.map (fun r => r ++ (L.filter (fun ct => decide (ct.1 ∉ ex))).map
          (fun ct => (ct.1, (none : Option SqlVal)))) := by
  induction L with
  | nil => intro t; simp
  | cons c rest ih =>
    intro t
    by_cases hc : c.1 ∈ ex
    · simp [List.foldl_cons, hc, ih]
    · simp only [List.foldl_cons, if_neg hc, ih, List.filter_cons]
      simp [hc, addColumn, List.map_map, Function.comp]

/-- The migration fold is the identity when every column is present. -/
lemma migrate_fold_id (L : List (String × String)) (ex : List String) :
    ∀ t : SnapTable, (∀ ct ∈ L, ct.1 ∈ ex) →
      L.foldl (fun acc ct => if ct.1 ∈ ex then acc else addColumn acc ct.1 ct.2) t
        = t := by
  induction L with
  | nil => intro t _; rfl
  | cons c rest ih =>
    intro t h
    have hc : c.1 ∈ ex := h c (List.mem_cons_self c rest)
    simp only [List.foldl_cons, if_pos hc]
    exact ih t (fun ct hct => h ct (List.mem_cons_of_mem _ hct))

/-- C4: on an existing `snapshots` table, `init_db`'s migration adds
exactly the expected columns that are missing (appended, with NULL in
every pre-existing row, i.e. nullable), preserves each pre-existing row's
cells for the original columns, and re-running it is a no-op. -/
theorem additive_migration (t : SnapTable) :
    colNames (init_db_migrate t)
      = colNames t ++ (expectedColumns.filter
          (fun ct => decide (ct.1 ∉ colNames t))).map Prod.fst
    ∧ (init_db_migrate t).rows
      = t.rows.map (fun r => r ++ (expectedColumns.filter
          (fun ct => decide (ct.1 ∉ colNames t))).map
            (fun ct => (ct.1, (none : Option SqlVal))))
    ∧ init_db_migrate (init_db_migrate t) = init_db_migrate t := by
  refine ⟨migrate_fold_cols _ _ t, migrate_fold_rows _ _ t, ?_⟩
  have hall : ∀ ct ∈ expectedColumns, ct.1 ∈ colNames (init_db_migrate t) := by
    intro ct hct
    rw [show colNames (init_db_migrate t)
        = colNames t ++ (expectedColumns.filter
            (fun ct => decide (ct.1 ∉ colNames t))).map Prod.fst
      from migrate_fold_cols _ _ t]
    by_cases hc : ct.1 ∈ colNames t
    · exact List.mem_append_left _ hc
    · refine List.mem_append_right _ ?_
      exact List.mem_map_of_mem _ (List.mem_filter.mpr ⟨hct, by simp [hc]⟩)
  calc init_db_migrate (init_db_migrate t)
      = expectedColumns.foldl
          (fun acc ct =>
            if ct.1 ∈ colNames (init_db_migrate t) then acc
            else addColumn acc ct.1 ct.2) (init_db_migrate t) := rfl
    _ = init_db_migrate t := migrate_fold_id _ _ _ hall

/-! ## C8 and C9: the DOM extraction as a set union -/

/-- Folding the numeric tokens of one attribute value into the set adds
exactly `attrIdsOfVal`. -/
lemma token_fold_eq (ts : List String) (s : Finset ℤ) :
    ts.foldl (fun s2 t =>
      let a := pyStrip t
      if pyIsdigit a then insert (pyInt a) s2 else s2) s
      = s ∪ (ts.filterMap (fun t =>
          let a := pyStrip t
          if pyIsdigit a then some (pyInt a) else none)).toFinset := by
  induction ts generalizing s with
  | nil => simp
  | cons t rest ih =>
    by_cases h : pyIsdigit (pyStrip t) = true
    · simp [List.foldl_cons, List.filterMap_cons, h, ih,
        Finset.insert_union, Finset.union_insert]
    · simp [List.foldl_cons, List.filterMap_cons, h, ih]

/-- The attribute loop of `_extract_appids_from_dom` adds exactly the
attribute-strategy ids. -/
lemma attr_fold_eq (vs : List (Option String)) (s : Finset ℤ) :
    vs.foldl (fun s v =>
      (pySplitComma (v.getD "")).foldl (fun s2 t =>
        let a := pyStrip t
        if pyIsdigit a then insert (pyInt a) s2 else s2) s) s
      = s ∪ ((vs.map (fun v => attrIdsOfVal (v.getD ""))).flatten).toFinset := by
  induction vs generalizing s with
  | nil => simp
  | cons v rest ih =>
    rw [List.foldl_cons, token_fold_eq, ih]
    simp [attrIdsOfVal, Finset.union_assoc]

/-- The href loop of `_extract_appids_from_dom` adds exactly the
href-strategy ids. -/
lemma href_fold_eq (hs : List (Option String)) (s : Finset ℤ) :
    hs.foldl (fun s h =>
      match appSearch (h.getD "").data with
      | some n => insert (Int.ofNat n) s
      | none => s) s
      = s ∪ (hs.filterMap (fun h => (appSearch (h.getD "").data).map Int.ofNat)).toFinset := by
  induction hs generalizing s with
  | nil => simp
  | cons h rest ih =>
    cases hh : appSearch ((h.getD "").data) with
    | none =>
      rw [List.foldl_cons, List.filterMap_cons]
      simp only [hh, Option.map_none']
      exact ih s
    | some n =>
      rw [List.foldl_cons, List.filterMap_cons]
      simp only [hh, Option.map_some']
      rw [ih]
      simp [Finset.insert_union, Finset.union_insert]

/-- The extraction is the union of its two strategies. -/
lemma extract_eq_union (p : Page) :
    extract_appids_from_dom p = attrStrategyIds p ∪ hrefStrategyIds p := by
  unfold extract_appids_from_dom attrStrategyIds hrefStrategyIds
  rw [href_fold_eq, attr_fold_eq]
  simp

/-- A page on which the two strategies yield the overlapping sets
`{1, 2, 3}` and `{2, 3, 4}`. -/
def pageEx : Page :=
  ⟨[some "1,2,3"], [some "/app/2", some "/app/3", some "/app/4"]⟩

/-- C8: the extraction returns exactly the union of the attribute-strategy
ids and the href-strategy ids (a set, hence duplicate-free); on the
overlapping example the result is `{1, 2, 3, 4}`. -/
theorem dom_extraction_union :
    (∀ p : Page, extract_appids_from_dom p = attrStrategyIds p ∪ hrefStrategyIds p)
    ∧ attrStrategyIds pageEx = {1, 2, 3}
    ∧ hrefStrategyIds pageEx = {2, 3, 4}
    ∧ extract_appids_from_dom pageEx = {1, 2, 3, 4} :=
  ⟨extract_eq_union, by decide, by decide, by decide⟩

/-- The pagination loop body adds exactly the logo-regex ids. -/
lemma paginate_fold_eq (items : List SearchItem) (s : Finset ℤ) :
    paginate_items items s
      = s ∪ (items.filterMap
          (fun it => (logoSearch (it.logo.getD "").data).map Int.ofNat)).toFinset := by
  unfold paginate_items
  induction items generalizing s with
  | nil => simp
  | cons it rest ih =>
    cases hh : logoSearch ((it.logo.getD "").data) with
    | none =>
      rw [List.foldl_cons, List.filterMap_cons]
      simp only [hh, Option.map_none']
      exact ih s
    | some n =>
      rw [List.foldl_cons, List.filterMap_cons]
      simp only [hh, Option.map_some']
      rw [ih]
      simp [Finset.insert_union, Finset.union_insert]

/-- A page whose only attribute token is the digit string `0`. -/
def pageZero : Page := ⟨[some "0"], []⟩

/-- C9 counterexample: the token `0` passes the numeric validation, so the
extraction admits the id `0`, which is not strictly positive. -/
theorem extraction_admits_zero_cex :
    (0 : ℤ) ∈ extract_appids_from_dom pageZero ∧ ¬ (0 : ℤ) < (0 : ℤ) :=
  ⟨by decide, by decide⟩

/-- C9 amended: every id the DOM extraction or the pagination loop admits
is a nonnegative integer (a decimal digit run converts to a natural
number); zero is admitted, strict positivity is not enforced. -/
theorem extracted_ids_nonneg (p : Page) (items : List SearchItem) :
    (∀ n, n ∈ extract_appids_from_dom p → 0 ≤ n)
    ∧ (∀ n, n ∈ paginate_items items ∅ → 0 ≤ n) := by
  constructor
  · intro n hn
    rw [extract_eq_union] at hn
    rcases Finset.mem_union.mp hn with h | h
    · rw [attrStrategyIds, List.mem_toFinset] at h
      rcases List.mem_flatten.mp h with ⟨l, hl, hnl⟩
      rcases List.mem_map.mp hl with ⟨v, _, rfl⟩
      rcases List.mem_filterMap.mp hnl with ⟨t, _, ht⟩
      simp only [pyInt] at ht
      split at ht
      · cases ht
        exact Int.ofNat_nonneg _
      · cases ht
    · rw [hrefStrategyIds, List.mem_toFinset] at h
      rcases List.mem_filterMap.mp h with ⟨hr, _, hh⟩
      rcases Option.map_eq_some'.mp hh with ⟨k, _, rfl⟩
      exact Int.ofNat_nonneg _
  · intro n hn
    rw [paginate_fold_eq, Finset.empty_union, List.mem_toFinset] at hn
    rcases List.mem_filterMap.mp hn with ⟨it, _, hh⟩
    rcases Option.map_eq_some'.mp hh with ⟨k, _, rfl⟩
    exact Int.ofNat_nonneg _

/-- Witness: id 5 is extracted from a sample page and is nonnegative, and
id 9 from a sample search item list likewise. -/
theorem extracted_ids_nonneg_witness :
    ((5 : ℤ) ∈ extract_appids_from_dom ⟨[some "5"], []⟩ ∧ (0 : ℤ) ≤ 5)
    ∧ ((9 : ℤ) ∈ paginate_items [⟨some "/apps/9/logo.png"⟩] ∅ ∧ (0 : ℤ) ≤ 9) :=
  ⟨⟨by decide, (extracted_ids_nonneg ⟨[some "5"], []⟩ []).1 5 (by decide)⟩,
   ⟨by decide, (extracted_ids_nonneg ⟨[some "5"], []⟩ [⟨some "/apps/9/logo.png"⟩]).2 9 (by decide)⟩⟩

end NextFest
